import Mathlib

/-!
# Clementine on-screen display (`src/widgets/osd.cpp`)

A shallow embedding of the `OSD` class of `osd.cpp`: the data members become
the fields of a record, every member function becomes a function from the
record to the record, and the collaborators the class only holds pointers to
(the tray icon, the pretty popup, the cover loader, the platform's native
notifier) are represented by the ordered list of calls made on them.
-/

namespace Clementine

/-- Text values (`QString`); `isEmpty` is comparison with the empty string. -/
abbrev QString := String

/-- An image value (`QImage`): either the null image `QImage()` or some pixel
content, which the dispatcher never inspects. -/
inductive QImage
  | null
  | pixels (content : Nat)
  deriving DecidableEq, Repr

/-- The test `QImage::isNull`. -/
def QImage.isNull : QImage → Bool
  | .null => true
  | .pixels _ => false

/-- The values `OSD::SongChanged` reads from a `Song` through its accessors
`PrettyTitle()`, `artist()`, `album()`, `disc()` and `track()`. The `Song`
class itself is not part of the two source files, so a song is the record of
what those accessors return. -/
structure Song where
  PrettyTitle : QString
  artist : QString
  album : QString
  disc : Int
  track : Int
  deriving DecidableEq, Repr

/-- The record `OSD::WaitingForAlbumArt` stored while cover art is loading. -/
structure WaitingForAlbumArt where
  icon : QString
  summary : QString
  message : QString
  deriving DecidableEq, Repr

/-- A default-constructed `WaitingForAlbumArt` holds three empty strings; it is
what `QMap::take` returns for a key that is not in the map. -/
instance : Inhabited WaitingForAlbumArt := ⟨⟨"", "", ""⟩⟩

/-- The enumeration `OSD::Behaviour`. Its numbering lives in `osd.h`, so a value
is either one of the four enumerators the code names, or `Other raw` for a
stored integer that is none of them (the `default:` arm of the switch). -/
inductive Behaviour
  | Disabled
  | Native
  | TrayPopup
  | Pretty
  | Other (raw : Int)
  deriving DecidableEq, Repr

/-- The enumeration `PlaylistSequence::ShuffleMode`. -/
inductive ShuffleMode
  | Shuffle_Off
  | Shuffle_All
  | Shuffle_Album
  deriving DecidableEq, Repr

/-- The enumeration `PlaylistSequence::RepeatMode`. -/
inductive RepeatMode
  | Repeat_Off
  | Repeat_Track
  | Repeat_Album
  | Repeat_Playlist
  deriving DecidableEq, Repr

/-- One call made by the dispatcher, in program order. All but the last are
calls on collaborators (`ShowMessageNative` is the platform's notifier, defined
per platform outside `osd.cpp`); `ShowMessage` records an entry into
`OSD::ShowMessage` itself with its four arguments, so that statements can count
dispatches even when the active behaviour shows nothing. -/
inductive Call
  /-- The call `tray_icon_->SetNowPlaying(song, image_path)`; `none` is `NULL`. -/
  | SetNowPlaying (song : Song) (image_path : Option QString)
  /-- The call `tray_icon_->ClearNowPlaying()`. -/
  | ClearNowPlaying
  /-- The call `tray_icon_->ShowPopup(summary, message, timeout_msec_)`. -/
  | ShowPopup (summary message : QString) (timeout_msec : Int)
  /-- The call `ShowMessageNative(summary, message, icon, image)`. -/
  | ShowMessageNative (summary message icon : QString) (image : QImage)
  /-- The call `pretty_popup_->SetMessage(summary, message, image)`. -/
  | SetMessage (summary message : QString) (image : QImage)
  /-- The call `pretty_popup_->show()`. -/
  | prettyShow
  /-- The call `pretty_popup_->set_popup_duration(timeout_msec_)`. -/
  | set_popup_duration (timeout_msec : Int)
  /-- The call `pretty_popup_->ReloadSettings()`. -/
  | prettyReloadSettings
  /-- The call `cover_loader_->Worker()->LoadImageAsync(song)`, with the id it returned. -/
  | LoadImageAsync (song : Song) (id : Nat)
  /-- The call `cover_loader_->Worker()->SetPadOutputImage(pad)`. -/
  | SetPadOutputImage (pad : Bool)
  /-- The call `cover_loader_->Worker()->SetDefaultOutputImage(image)`. -/
  | SetDefaultOutputImage (image : QImage)
  /-- Entry into `OSD::ShowMessage(summary, message, icon, image)`. -/
  | ShowMessage (summary message icon : QString) (image : QImage)
  deriving DecidableEq, Repr

/-- A call that makes a notification visible: the native notifier, the tray
popup, or the pretty popup's `SetMessage` and `show`. -/
def Call.isBackend : Call → Bool
  | .ShowPopup _ _ _ => true
  | .ShowMessageNative _ _ _ _ => true
  | .SetMessage _ _ _ => true
  | .prettyShow => true
  | _ => false

/-- The arguments of the entries into `OSD::ShowMessage` found in a call list,
in order. -/
def dispatched : List Call → List (QString × QString × QString × QImage)
  | [] => []
  | .ShowMessage summary message icon image :: rest =>
      (summary, message, icon, image) :: dispatched rest
  | _ :: rest => dispatched rest

/-- The backend calls found in a call list, in order. -/
def backendCalls (calls : List Call) : List Call :=
  calls.filter Call.isBackend

/-- The pending table `waiting_for_album_art_`, a `QMap<quint64, WaitingForAlbumArt>`,
as an association list. -/
abbrev QMap := List (Nat × WaitingForAlbumArt)

/-- The entry stored under `id`, if any (`QMap::contains` and `QMap::value`). -/
def QMap.find (id : Nat) : QMap → Option WaitingForAlbumArt
  | [] => none
  | (k, v) :: rest => if k = id then some v else QMap.find id rest

/-- The map without the key `id` (`QMap::remove`). -/
def QMap.remove (id : Nat) (m : QMap) : QMap :=
  m.filter (fun e => decide (e.1 ≠ id))

/-- The function `QMap::insert`: the value under an existing key is replaced. -/
def QMap.insert (id : Nat) (v : WaitingForAlbumArt) (m : QMap) : QMap :=
  (id, v) :: QMap.remove id m

/-- The function `QMap::take`: removes the key and returns its value, or a
default-constructed value when the key is absent. -/
def QMap.take (id : Nat) (m : QMap) : WaitingForAlbumArt × QMap :=
  ((QMap.find id m).getD default, QMap.remove id m)

/-- The number of entries (`QMap::size`). -/
def QMap.size (m : QMap) : Nat := m.length

/-- What the code reads from outside the class: the application name, the two
platform capability tests (defined per platform outside `osd.cpp`), whether the
build is for Darwin (`Q_OS_DARWIN`), and the two images loaded from resources. -/
structure Env where
  applicationName : QString
  SupportsNativeNotifications : Bool
  SupportsTrayPopups : Bool
  Q_OS_DARWIN : Bool
  magnatuneImage : QImage
  nocoverImage : QImage
  deriving DecidableEq, Repr

/-- The group `OSD` of the persisted settings; `none` is an absent key. -/
structure QSettings where
  Behaviour : Option Behaviour
  Timeout : Option Int
  ShowOnVolumeChange : Option Bool
  ShowArt : Option Bool
  ShowOnPlayModeChange : Option Bool
  deriving DecidableEq, Repr

/-- The data members of `OSD`, and the calls made so far. -/
structure OSD where
  timeout_msec_ : Int
  behaviour_ : Behaviour
  show_on_volume_change_ : Bool
  show_art_ : Bool
  show_on_play_mode_change_ : Bool
  force_show_next_ : Bool
  ignore_next_stopped_ : Bool
  waiting_for_album_art_ : QMap
  calls : List Call
  deriving DecidableEq, Repr

/-- Append one call to the record of calls. -/
def OSD.call (s : OSD) (c : Call) : OSD :=
  { s with calls := s.calls ++ [c] }

/-- The translation function `tr`, taken in the source language (no translation
loaded). A placeholder `%1` filled by `arg` is written as concatenation at the
call site. -/
def tr (text : QString) : QString := text

/-- The member function `OSD::ShowMessage`. -/
def ShowMessage (env : Env) (s : OSD) (summary message icon : QString)
    (image : QImage) : OSD :=
  let s := s.call (.ShowMessage summary message icon image)
  match s.behaviour_ with
  | .Native =>
      if image.isNull then
        s.call (.ShowMessageNative summary message icon .null)
      else
        s.call (.ShowMessageNative summary message "" image)
  | .TrayPopup =>
      if env.Q_OS_DARWIN then s
      else s.call (.ShowPopup summary message s.timeout_msec_)
  | .Disabled =>
      if !s.force_show_next_ then s
      else
        let s := { s with force_show_next_ := false }
        (s.call (.SetMessage summary message image)).call .prettyShow
  | .Pretty =>
      (s.call (.SetMessage summary message image)).call .prettyShow
  | .Other _ => s

/-- The member function `OSD::CoverLoaderInitialised`. -/
def CoverLoaderInitialised (env : Env) (s : OSD) : OSD :=
  (s.call (.SetPadOutputImage false)).call (.SetDefaultOutputImage env.nocoverImage)

/-- The member function `OSD::ReloadSettings`, reading the settings `cfg`. -/
def ReloadSettings (env : Env) (s : OSD) (cfg : QSettings) : OSD :=
  let s := { s with
    behaviour_ := cfg.Behaviour.getD .Native
    timeout_msec_ := cfg.Timeout.getD 5000
    show_on_volume_change_ := cfg.ShowOnVolumeChange.getD false
    show_art_ := cfg.ShowArt.getD true
    show_on_play_mode_change_ := cfg.ShowOnPlayModeChange.getD true }
  let s :=
    if !env.SupportsNativeNotifications && s.behaviour_ == .Native then
      { s with behaviour_ := .Pretty }
    else s
  let s :=
    if !env.SupportsTrayPopups && s.behaviour_ == .TrayPopup then
      { s with behaviour_ := .Disabled }
    else s
  (s.call (.set_popup_duration s.timeout_msec_)).call .prettyReloadSettings

/-- The overload `OSD::AlbumArtLoaded(const WaitingForAlbumArt, const QImage&)`. -/
def AlbumArtLoadedInfo (env : Env) (s : OSD) (info : WaitingForAlbumArt)
    (image : QImage) : OSD :=
  ShowMessage env s info.summary info.message info.icon image

/-- The overload `OSD::AlbumArtLoaded(quint64, const QImage&)`. -/
def AlbumArtLoaded (env : Env) (s : OSD) (id : Nat) (image : QImage) : OSD :=
  let taken := QMap.take id s.waiting_for_album_art_
  let info := taken.1
  let s := { s with waiting_for_album_art_ := taken.2 }
  AlbumArtLoadedInfo env s info image

/-- The member function `OSD::SongChanged`. The argument `id` is the value
`LoadImageAsync` returns if it is called. -/
def SongChanged (env : Env) (s : OSD) (song : Song) (id : Nat) : OSD :=
  let s := s.call (.SetNowPlaying song none)
  let summary := song.PrettyTitle
  let summary :=
    if !song.artist.isEmpty then song.artist ++ " - " ++ summary else summary
  let message_parts : List QString := []
  let message_parts :=
    if !song.album.isEmpty then message_parts ++ [song.album] else message_parts
  let message_parts :=
    if song.disc > 0 then message_parts ++ [tr "disc " ++ toString song.disc]
    else message_parts
  let message_parts :=
    if song.track > 0 then message_parts ++ [tr "track " ++ toString song.track]
    else message_parts
  let waiting : WaitingForAlbumArt :=
    { icon := "notification-audio-play"
      summary := summary
      message := ", ".intercalate message_parts }
  if s.show_art_ then
    let s := s.call (.LoadImageAsync song id)
    { s with waiting_for_album_art_ := QMap.insert id waiting s.waiting_for_album_art_ }
  else
    AlbumArtLoadedInfo env s waiting .null

/-- The member function `OSD::CoverArtPathReady`. -/
def CoverArtPathReady (s : OSD) (song : Song) (image_path : QString) : OSD :=
  s.call (.SetNowPlaying song (some image_path))

/-- The member function `OSD::Paused`. -/
def Paused (env : Env) (s : OSD) : OSD :=
  ShowMessage env s env.applicationName (tr "Paused") "" .null

/-- The member function `OSD::Stopped`. -/
def Stopped (env : Env) (s : OSD) : OSD :=
  let s := s.call .ClearNowPlaying
  if s.ignore_next_stopped_ then
    { s with ignore_next_stopped_ := false }
  else
    ShowMessage env s env.applicationName (tr "Stopped") "" .null

/-- The member function `OSD::PlaylistFinished`. -/
def PlaylistFinished (env : Env) (s : OSD) : OSD :=
  let s := { s with ignore_next_stopped_ := true }
  ShowMessage env s env.applicationName (tr "Playlist finished") "" .null

/-- The member function `OSD::VolumeChanged`. -/
def VolumeChanged (env : Env) (s : OSD) (value : Int) : OSD :=
  if !s.show_on_volume_change_ then s
  else
    ShowMessage env s env.applicationName
      (tr "Volume " ++ toString value ++ "%") "" .null

/-- The member function `OSD::MagnatuneDownloadFinished`. -/
def MagnatuneDownloadFinished (env : Env) (s : OSD) (albums : List QString) : OSD :=
  let message :=
    match albums with
    | [album] => album
    | _ => toString albums.length ++ tr " albums"
  ShowMessage env s (tr "Magnatune download finished") message "" env.magnatuneImage

/-- The summary of the Wii remote messages, `tr("%1: Wiimotedev module")` filled
with the application name. -/
def wiimotedevSummary (env : Env) : QString :=
  env.applicationName ++ tr ": Wiimotedev module"

/-- The member function `OSD::WiiremoteActived` (built with `HAVE_WIIMOTEDEV`). -/
def WiiremoteActived (env : Env) (s : OSD) (id : Int) : OSD :=
  ShowMessage env s (wiimotedevSummary env)
    (tr "Wii Remote " ++ toString id ++ ": actived") "" .null

/-- The member function `OSD::WiiremoteDeactived` (built with `HAVE_WIIMOTEDEV`). -/
def WiiremoteDeactived (env : Env) (s : OSD) (id : Int) : OSD :=
  ShowMessage env s (wiimotedevSummary env)
    (tr "Wii Remote " ++ toString id ++ ": disactived") "" .null

/-- The member function `OSD::WiiremoteConnected` (built with `HAVE_WIIMOTEDEV`). -/
def WiiremoteConnected (env : Env) (s : OSD) (id : Int) : OSD :=
  ShowMessage env s (wiimotedevSummary env)
    (tr "Wii Remote " ++ toString id ++ ": connected") "" .null

/-- The member function `OSD::WiiremoteDisconnected` (built with `HAVE_WIIMOTEDEV`). -/
def WiiremoteDisconnected (env : Env) (s : OSD) (id : Int) : OSD :=
  ShowMessage env s (wiimotedevSummary env)
    (tr "Wii Remote " ++ toString id ++ ": disconnected") "" .null

/-- The member function `OSD::WiiremoteLowBattery` (built with `HAVE_WIIMOTEDEV`). -/
def WiiremoteLowBattery (env : Env) (s : OSD) (id live : Int) : OSD :=
  ShowMessage env s (wiimotedevSummary env)
    (tr "Wii Remote " ++ toString id ++ ": low battery (" ++ toString live ++ "%)") "" .null

/-- The member function `OSD::WiiremoteCriticalBattery` (built with `HAVE_WIIMOTEDEV`). -/
def WiiremoteCriticalBattery (env : Env) (s : OSD) (id live : Int) : OSD :=
  ShowMessage env s (wiimotedevSummary env)
    (tr "Wii Remote " ++ toString id ++ ": critical battery (" ++ toString live ++ "%) ")
    "" .null

/-- The member function `OSD::ShuffleModeChanged`. -/
def ShuffleModeChanged (env : Env) (s : OSD) (mode : ShuffleMode) : OSD :=
  if s.show_on_play_mode_change_ then
    let current_mode :=
      match mode with
      | .Shuffle_Off => tr "Don't shuffle"
      | .Shuffle_All => tr "Shuffle all"
      | .Shuffle_Album => tr "Shuffle by album"
    ShowMessage env s env.applicationName current_mode "" .null
  else s

/-- The member function `OSD::RepeatModeChanged`. -/
def RepeatModeChanged (env : Env) (s : OSD) (mode : RepeatMode) : OSD :=
  if s.show_on_play_mode_change_ then
    let current_mode :=
      match mode with
      | .Repeat_Off => tr "Don't repeat"
      | .Repeat_Track => tr "Repeat track"
      | .Repeat_Album => tr "Repeat album"
      | .Repeat_Playlist => tr "Repeat playlist"
    ShowMessage env s env.applicationName current_mode "" .null
  else s

/-- Further `SongChanged` calls, each with the token its art request returned. -/
def songChanges (env : Env) (s : OSD) (later : List (Song × Nat)) : OSD :=
  later.foldl (fun st p => SongChanged env st p.1 p.2) s

/-- The events the dispatcher receives: one per member function of `osd.cpp`
(constructor and destructor apart), with its arguments. -/
inductive Event
  | SongChanged (song : Song) (id : Nat)
  | CoverArtPathReady (song : Song) (image_path : QString)
  | CoverLoaderInitialised
  | AlbumArtLoaded (id : Nat) (image : QImage)
  | Paused
  | Stopped
  | PlaylistFinished
  | VolumeChanged (value : Int)
  | MagnatuneDownloadFinished (albums : List QString)
  | ShuffleModeChanged (mode : ShuffleMode)
  | RepeatModeChanged (mode : RepeatMode)
  | ReloadSettings (cfg : QSettings)
  | ShowMessage (summary message icon : QString) (image : QImage)
  | WiiremoteActived (id : Int)
  | WiiremoteDeactived (id : Int)
  | WiiremoteConnected (id : Int)
  | WiiremoteDisconnected (id : Int)
  | WiiremoteLowBattery (id live : Int)
  | WiiremoteCriticalBattery (id live : Int)
  deriving DecidableEq, Repr

/-- Run the handler of one event. -/
def step (env : Env) (s : OSD) : Event → OSD
  | .SongChanged song id => SongChanged env s song id
  | .CoverArtPathReady song image_path => CoverArtPathReady s song image_path
  | .CoverLoaderInitialised => CoverLoaderInitialised env s
  | .AlbumArtLoaded id image => AlbumArtLoaded env s id image
  | .Paused => Paused env s
  | .Stopped => Stopped env s
  | .PlaylistFinished => PlaylistFinished env s
  | .VolumeChanged value => VolumeChanged env s value
  | .MagnatuneDownloadFinished albums => MagnatuneDownloadFinished env s albums
  | .ShuffleModeChanged mode => ShuffleModeChanged env s mode
  | .RepeatModeChanged mode => RepeatModeChanged env s mode
  | .ReloadSettings cfg => ReloadSettings env s cfg
  | .ShowMessage summary message icon image => ShowMessage env s summary message icon image
  | .WiiremoteActived id => WiiremoteActived env s id
  | .WiiremoteDeactived id => WiiremoteDeactived env s id
  | .WiiremoteConnected id => WiiremoteConnected env s id
  | .WiiremoteDisconnected id => WiiremoteDisconnected env s id
  | .WiiremoteLowBattery id live => WiiremoteLowBattery env s id live
  | .WiiremoteCriticalBattery id live => WiiremoteCriticalBattery env s id live

/-- Run the handlers of a sequence of events, first to last. -/
def run (env : Env) (s : OSD) (events : List Event) : OSD :=
  events.foldl (step env) s

/-- The state the constructor sets up before it reads the settings. -/
def OSD.init : OSD :=
  { timeout_msec_ := 5000
    behaviour_ := .Native
    show_on_volume_change_ := false
    show_art_ := true
    show_on_play_mode_change_ := true
    force_show_next_ := false
    ignore_next_stopped_ := false
    waiting_for_album_art_ := []
    calls := [] }

/-- The state with the pending table left out: every data member except
`waiting_for_album_art_`, and the calls made so far. -/
def OSD.untabled (s : OSD) : OSD :=
  { s with waiting_for_album_art_ := [] }

/-- The keys of the pending table are pairwise distinct, as in every `QMap`. -/
def QMap.distinctKeys (m : QMap) : Prop :=
  (m.map Prod.fst).Nodup

instance (m : QMap) : Decidable (QMap.distinctKeys m) := by
  unfold QMap.distinctKeys
  infer_instance

/-- A state whose pending table already holds an entry under the token 4. -/
def OSD.pendingSample : OSD :=
  { OSD.init with
    waiting_for_album_art_ :=
      [(4, { icon := "notification-audio-play", summary := "Muse - Uprising", message := "" })] }

/-- An environment for examples: a platform with both capabilities. -/
def Env.sample : Env :=
  { applicationName := "Clementine"
    SupportsNativeNotifications := true
    SupportsTrayPopups := true
    Q_OS_DARWIN := false
    magnatuneImage := .pixels 1
    nocoverImage := .pixels 2 }

/-- The song of the formatting example. -/
def Song.starlight : Song :=
  { PrettyTitle := "Starlight", artist := "Muse", album := "Black Holes", disc := 0, track := 3 }

/-- The summary in the spec's words: artist, a dash and the title when the
artist is present, else just the title. -/
def specSummary (song : Song) : QString :=
  if song.artist = "" then song.PrettyTitle
  else song.artist ++ " - " ++ song.PrettyTitle

/-- The message in the spec's words: the non-empty parts among the album, the
disc number when positive and the track number when positive, joined by commas. -/
def specMessage (song : Song) : QString :=
  ", ".intercalate
    ([if song.album = "" then none else some song.album,
      if 0 < song.disc then some ("disc " ++ toString song.disc) else none,
      if 0 < song.track then some ("track " ++ toString song.track) else none].filterMap id)

/-- The pending notification of a song in the spec's words. -/
def specNotification (song : Song) : WaitingForAlbumArt :=
  { icon := "notification-audio-play"
    summary := specSummary song
    message := specMessage song }

/-! ## The pending table -/

theorem QMap.remove_cons (id k : Nat) (v : WaitingForAlbumArt) (rest : QMap) :
    QMap.remove id ((k, v) :: rest) =
      if k = id then QMap.remove id rest else (k, v) :: QMap.remove id rest := by
  by_cases h : k = id <;> simp [QMap.remove, List.filter_cons, h]

theorem QMap.find_cons (id k : Nat) (v : WaitingForAlbumArt) (rest : QMap) :
    QMap.find id ((k, v) :: rest) = if k = id then some v else QMap.find id rest := rfl

theorem QMap.find_remove_self (id : Nat) (m : QMap) :
    QMap.find id (QMap.remove id m) = none := by
  induction m with
  | nil => rfl
  | cons e rest ih =>
    obtain ⟨k, v⟩ := e
    rw [QMap.remove_cons]
    by_cases hk : k = id
    · rw [if_pos hk]; exact ih
    · rw [if_neg hk, QMap.find_cons, if_neg hk]; exact ih

theorem QMap.find_remove_ne (id k : Nat) (m : QMap) (h : k ≠ id) :
    QMap.find k (QMap.remove id m) = QMap.find k m := by
  induction m with
  | nil => rfl
  | cons e rest ih =>
    obtain ⟨j, v⟩ := e
    rw [QMap.remove_cons]
    by_cases hj : j = id
    · have hjk : ¬ j = k := fun hjk => h (hjk ▸ hj)
      rw [if_pos hj, QMap.find_cons, if_neg hjk]; exact ih
    · rw [if_neg hj, QMap.find_cons, QMap.find_cons, ih]

theorem QMap.remove_of_find_none (id : Nat) (m : QMap) (h : QMap.find id m = none) :
    QMap.remove id m = m := by
  induction m with
  | nil => rfl
  | cons e rest ih =>
    obtain ⟨k, v⟩ := e
    rw [QMap.find_cons] at h
    by_cases hk : k = id
    · rw [if_pos hk] at h; cases h
    · rw [if_neg hk] at h
      rw [QMap.remove_cons, if_neg hk, ih h]

theorem QMap.find_insert_self (id : Nat) (v : WaitingForAlbumArt) (m : QMap) :
    QMap.find id (QMap.insert id v m) = some v := by
  simp [QMap.insert, QMap.find]

theorem QMap.find_insert_ne (id k : Nat) (v : WaitingForAlbumArt) (m : QMap) (h : k ≠ id) :
    QMap.find k (QMap.insert id v m) = QMap.find k m := by
  have h2 : id ≠ k := fun e => h e.symm
  simp [QMap.insert, QMap.find, h2, QMap.find_remove_ne id k m h]

theorem QMap.size_insert_fresh (id : Nat) (v : WaitingForAlbumArt) (m : QMap)
    (h : QMap.find id m = none) :
    QMap.size (QMap.insert id v m) = QMap.size m + 1 := by
  simp [QMap.insert, QMap.size, QMap.remove_of_find_none id m h]

/-! ## Reading a call list -/

theorem dispatched_append (xs ys : List Call) :
    dispatched (xs ++ ys) = dispatched xs ++ dispatched ys := by
  induction xs with
  | nil => rfl
  | cons c rest ih => cases c <;> simp [dispatched, ih]

theorem dispatched_of_backend (bs : List Call) (h : ∀ c ∈ bs, c.isBackend = true) :
    dispatched bs = [] := by
  induction bs with
  | nil => rfl
  | cons c rest ih =>
    have hc := h c (List.mem_cons_self c rest)
    have hr : ∀ d ∈ rest, d.isBackend = true := fun d hd => h d (List.mem_cons_of_mem c hd)
    cases c <;> simp_all [dispatched, Call.isBackend]

/-! ## What `ShowMessage` touches -/

/-- The calls `ShowMessage` makes: its entry mark, then backend calls only. -/
theorem ShowMessage_calls (env : Env) (s : OSD) (summary message icon : QString)
    (image : QImage) :
    ∃ bs : List Call, (∀ c ∈ bs, c.isBackend = true) ∧
      (ShowMessage env s summary message icon image).calls =
        s.calls ++ Call.ShowMessage summary message icon image :: bs := by
  unfold ShowMessage
  cases hb : s.behaviour_ with
  | Native =>
    cases image with
    | null =>
      exact ⟨[.ShowMessageNative summary message icon .null], by simp [Call.isBackend],
        by simp [OSD.call, hb, QImage.isNull]⟩
    | pixels n =>
      exact ⟨[.ShowMessageNative summary message "" (.pixels n)], by simp [Call.isBackend],
        by simp [OSD.call, hb, QImage.isNull]⟩
  | TrayPopup =>
    cases hd : env.Q_OS_DARWIN with
    | true => exact ⟨[], by simp, by simp [OSD.call, hb, hd]⟩
    | false =>
      exact ⟨[.ShowPopup summary message s.timeout_msec_], by simp [Call.isBackend],
        by simp [OSD.call, hb, hd]⟩
  | Disabled =>
    cases hf : s.force_show_next_ with
    | false => exact ⟨[], by simp, by simp [OSD.call, hb, hf]⟩
    | true =>
      exact ⟨[.SetMessage summary message image, .prettyShow], by simp [Call.isBackend],
        by simp [OSD.call, hb, hf]⟩
  | Pretty =>
    exact ⟨[.SetMessage summary message image, .prettyShow], by simp [Call.isBackend],
      by simp [OSD.call, hb]⟩
  | Other raw => exact ⟨[], by simp, by simp [OSD.call, hb]⟩

theorem ShowMessage_dispatched (env : Env) (s : OSD) (summary message icon : QString)
    (image : QImage) :
    dispatched (ShowMessage env s summary message icon image).calls =
      dispatched s.calls ++ [(summary, message, icon, image)] := by
  obtain ⟨bs, hbs, hcalls⟩ := ShowMessage_calls env s summary message icon image
  rw [hcalls, dispatched_append]
  simp [dispatched, dispatched_of_backend bs hbs]

theorem ShowMessage_table (env : Env) (s : OSD) (summary message icon : QString)
    (image : QImage) :
    (ShowMessage env s summary message icon image).waiting_for_album_art_ =
      s.waiting_for_album_art_ := by
  unfold ShowMessage
  cases hb : s.behaviour_ <;> simp [OSD.call, hb] <;> split <;> rfl

theorem ShowMessage_ignore (env : Env) (s : OSD) (summary message icon : QString)
    (image : QImage) :
    (ShowMessage env s summary message icon image).ignore_next_stopped_ =
      s.ignore_next_stopped_ := by
  unfold ShowMessage
  cases hb : s.behaviour_ <;> simp [OSD.call, hb] <;> split <;> rfl

theorem ShowMessage_show_art (env : Env) (s : OSD) (summary message icon : QString)
    (image : QImage) :
    (ShowMessage env s summary message icon image).show_art_ = s.show_art_ := by
  unfold ShowMessage
  cases hb : s.behaviour_ <;> simp [OSD.call, hb] <;> split <;> rfl

/-! ## Art delivered for an unknown token -/

/-- C1, as stated, fails: in the state the constructor sets up (behaviour
Native, empty pending table) the token 7 is not pending, yet `AlbumArtLoaded`
enters `ShowMessage` with three empty strings and calls the native notifier. -/
theorem unknown_token_is_dispatched :
    QMap.find 7 OSD.init.waiting_for_album_art_ = none ∧
    (AlbumArtLoaded Env.sample OSD.init 7 .null).calls =
      [.ShowMessage "" "" "" .null, .ShowMessageNative "" "" "" .null] ∧
    backendCalls (AlbumArtLoaded Env.sample OSD.init 7 .null).calls ≠ [] ∧
    AlbumArtLoaded Env.sample OSD.init 7 .null ≠ OSD.init := by
  decide

/-- C1, amended: for a token that is not a key of the pending table,
`AlbumArtLoaded(token, image)` is exactly one `ShowMessage` call with an empty
summary, message and icon and the delivered image, on the unchanged state; the
pending table and `ignore_next_stopped_` are unchanged, and it shows nothing
and changes nothing when the behaviour is Disabled and no show is forced. -/
theorem AlbumArtLoaded_unknown_token (env : Env) (s : OSD) (id : Nat) (image : QImage)
    (h : QMap.find id s.waiting_for_album_art_ = none) :
    AlbumArtLoaded env s id image = ShowMessage env s "" "" "" image ∧
    dispatched (AlbumArtLoaded env s id image).calls =
      dispatched s.calls ++ [("", "", "", image)] ∧
    (AlbumArtLoaded env s id image).waiting_for_album_art_ = s.waiting_for_album_art_ ∧
    (AlbumArtLoaded env s id image).ignore_next_stopped_ = s.ignore_next_stopped_ ∧
    (s.behaviour_ = .Disabled → s.force_show_next_ = false →
      AlbumArtLoaded env s id image = s.call (.ShowMessage "" "" "" image)) := by
  have heq : AlbumArtLoaded env s id image = ShowMessage env s "" "" "" image := by
    simp only [AlbumArtLoaded, AlbumArtLoadedInfo, QMap.take, h,
      QMap.remove_of_find_none id _ h]
    rfl
  refine ⟨heq, ?_, ?_, ?_, ?_⟩
  · rw [heq, ShowMessage_dispatched]
  · rw [heq, ShowMessage_table]
  · rw [heq, ShowMessage_ignore]
  · intro hb hf
    rw [heq]
    simp [ShowMessage, OSD.call, hb, hf]

theorem AlbumArtLoaded_unknown_token_witness :
    AlbumArtLoaded Env.sample { OSD.init with behaviour_ := .Disabled } 7 (.pixels 5) =
      ({ OSD.init with behaviour_ := .Disabled } : OSD).call
        (.ShowMessage "" "" "" (.pixels 5)) :=
  (AlbumArtLoaded_unknown_token Env.sample { OSD.init with behaviour_ := .Disabled } 7
    (.pixels 5) rfl).2.2.2.2 rfl rfl

/-! ## Dispatch while disabled -/

/-- C2: with behaviour Disabled, `ShowMessage` without a forced show only
records its own entry (no backend call, no change of a data member); with a
forced show it makes exactly the calls of the Pretty path (`SetMessage` with
the summary, message and image, then `show`), clears `force_show_next_`, keeps
the behaviour Disabled, and a following `ShowMessage` calls no backend. -/
theorem ShowMessage_Disabled (env : Env) (s : OSD) (summary message icon : QString)
    (image : QImage) (h : s.behaviour_ = .Disabled) :
    (s.force_show_next_ = false →
      ShowMessage env s summary message icon image =
        s.call (.ShowMessage summary message icon image)) ∧
    (s.force_show_next_ = true →
      ShowMessage env s summary message icon image =
        { s with
          force_show_next_ := false
          calls := s.calls ++ [.ShowMessage summary message icon image,
            .SetMessage summary message image, .prettyShow] } ∧
      (ShowMessage env s summary message icon image).calls =
        (ShowMessage env { s with behaviour_ := .Pretty } summary message icon image).calls ∧
      (ShowMessage env s summary message icon image).behaviour_ = .Disabled ∧
      (ShowMessage env s summary message icon image).force_show_next_ = false ∧
      ∀ (summary2 message2 icon2 : QString) (image2 : QImage),
        ShowMessage env (ShowMessage env s summary message icon image)
            summary2 message2 icon2 image2 =
          (ShowMessage env s summary message icon image).call
            (.ShowMessage summary2 message2 icon2 image2)) := by
  constructor
  · intro hf
    simp [ShowMessage, OSD.call, h, hf]
  · intro hf
    have heq : ShowMessage env s summary message icon image =
        { s with
          force_show_next_ := false
          calls := s.calls ++ [.ShowMessage summary message icon image,
            .SetMessage summary message image, .prettyShow] } := by
      simp [ShowMessage, OSD.call, h, hf]
    refine ⟨heq, ?_, ?_, ?_, ?_⟩
    · rw [heq]; simp [ShowMessage, OSD.call]
    · rw [heq]; exact h
    · rw [heq]
    · intro summary2 message2 icon2 image2
      rw [heq]
      simp [ShowMessage, OSD.call, h]

theorem ShowMessage_Disabled_witness :
    ShowMessage Env.sample { OSD.init with behaviour_ := .Disabled, force_show_next_ := true }
        "Clementine" "Paused" "" .null =
      { OSD.init with
        behaviour_ := .Disabled
        force_show_next_ := false
        calls := [.ShowMessage "Clementine" "Paused" "" .null,
          .SetMessage "Clementine" "Paused" .null, .prettyShow] } :=
  ((ShowMessage_Disabled Env.sample
    { OSD.init with behaviour_ := .Disabled, force_show_next_ := true }
    "Clementine" "Paused" "" .null rfl).2 rfl).1

/-! ## Native dispatch -/

/-- C8: with behaviour Native, `ShowMessage` records its entry and calls the
native notifier exactly once and nothing else, changing no data member: with
the icon and a null image when the image is null, with an empty icon and the
image otherwise; so the notifier never gets a non-empty icon together with a
non-null image, and `force_show_next_` keeps its value. -/
theorem ShowMessage_Native (env : Env) (s : OSD) (summary message icon : QString)
    (image : QImage) (h : s.behaviour_ = .Native) :
    (image = .null →
      ShowMessage env s summary message icon image =
        { s with calls := s.calls ++ [.ShowMessage summary message icon image,
            .ShowMessageNative summary message icon .null] }) ∧
    (image ≠ .null →
      ShowMessage env s summary message icon image =
        { s with calls := s.calls ++ [.ShowMessage summary message icon image,
            .ShowMessageNative summary message "" image] }) ∧
    (∃ (icon2 : QString) (image2 : QImage),
      backendCalls (ShowMessage env s summary message icon image).calls =
        backendCalls s.calls ++ [.ShowMessageNative summary message icon2 image2] ∧
      ¬ (icon2 ≠ "" ∧ image2 ≠ .null)) ∧
    (ShowMessage env s summary message icon image).force_show_next_ =
      s.force_show_next_ := by
  cases image with
  | null =>
    refine ⟨fun _ => ?_, fun hn => absurd rfl hn, ⟨icon, .null, ?_, ?_⟩, ?_⟩
    · simp [ShowMessage, OSD.call, h, QImage.isNull]
    · simp [ShowMessage, OSD.call, h, QImage.isNull, backendCalls, Call.isBackend,
        List.filter_cons]
    · simp
    · simp [ShowMessage, OSD.call, h, QImage.isNull]
  | pixels n =>
    refine ⟨fun hn => QImage.noConfusion hn, fun _ => ?_, ⟨"", .pixels n, ?_, ?_⟩, ?_⟩
    · simp [ShowMessage, OSD.call, h, QImage.isNull]
    · simp [ShowMessage, OSD.call, h, QImage.isNull, backendCalls, Call.isBackend,
        List.filter_cons]
    · simp
    · simp [ShowMessage, OSD.call, h, QImage.isNull]

theorem ShowMessage_Native_witness :
    ShowMessage Env.sample OSD.init "Muse - Starlight" "Black Holes" "notification-audio-play"
        (.pixels 9) =
      { OSD.init with calls :=
          [.ShowMessage "Muse - Starlight" "Black Holes" "notification-audio-play" (.pixels 9),
            .ShowMessageNative "Muse - Starlight" "Black Holes" "" (.pixels 9)] } :=
  (ShowMessage_Native Env.sample OSD.init "Muse - Starlight" "Black Holes"
    "notification-audio-play" (.pixels 9) rfl).2.1 (by decide)

/-! ## Settings -/

/-- C6: after `ReloadSettings`, for every stored behaviour (Native when the key
is absent) and every pair of platform capabilities: without native
notifications the behaviour is not Native (a stored Native becomes Pretty),
without tray popups it is not TrayPopup (a stored TrayPopup becomes Disabled),
and in every other case it is the stored value. -/
theorem ReloadSettings_behaviour (env : Env) (s : OSD) (cfg : QSettings) :
    (env.SupportsNativeNotifications = false →
      (ReloadSettings env s cfg).behaviour_ ≠ .Native) ∧
    (env.SupportsTrayPopups = false →
      (ReloadSettings env s cfg).behaviour_ ≠ .TrayPopup) ∧
    (env.SupportsNativeNotifications = false → cfg.Behaviour.getD .Native = .Native →
      (ReloadSettings env s cfg).behaviour_ = .Pretty) ∧
    (env.SupportsTrayPopups = false → cfg.Behaviour.getD .Native = .TrayPopup →
      (ReloadSettings env s cfg).behaviour_ = .Disabled) ∧
    (¬ (env.SupportsNativeNotifications = false ∧ cfg.Behaviour.getD .Native = .Native) →
      ¬ (env.SupportsTrayPopups = false ∧ cfg.Behaviour.getD .Native = .TrayPopup) →
      (ReloadSettings env s cfg).behaviour_ = cfg.Behaviour.getD .Native) := by
  cases hn : env.SupportsNativeNotifications <;> cases ht : env.SupportsTrayPopups <;>
    cases hb : cfg.Behaviour.getD .Native <;>
    simp [ReloadSettings, OSD.call, hn, ht, hb]

theorem ReloadSettings_behaviour_witness :
    (ReloadSettings { Env.sample with SupportsTrayPopups := false } OSD.init
      { Behaviour := some .TrayPopup, Timeout := none, ShowOnVolumeChange := none,
        ShowArt := none, ShowOnPlayModeChange := none }).behaviour_ = .Disabled :=
  (ReloadSettings_behaviour { Env.sample with SupportsTrayPopups := false } OSD.init
    { Behaviour := some .TrayPopup, Timeout := none, ShowOnVolumeChange := none,
      ShowArt := none, ShowOnPlayModeChange := none }).2.2.2.1 rfl rfl

/-! ## Playlist finished, then stopped -/

theorem Stopped_ignored (env : Env) (s : OSD) (h : s.ignore_next_stopped_ = true) :
    Stopped env s =
      { s with ignore_next_stopped_ := false, calls := s.calls ++ [.ClearNowPlaying] } := by
  simp [Stopped, OSD.call, h]

theorem Stopped_dispatches (env : Env) (s : OSD) (h : s.ignore_next_stopped_ = false) :
    Stopped env s =
      ShowMessage env (s.call .ClearNowPlaying) env.applicationName "Stopped" "" .null := by
  simp [Stopped, OSD.call, h, tr]

theorem PlaylistFinished_ignore (env : Env) (s : OSD) :
    (PlaylistFinished env s).ignore_next_stopped_ = true := by
  simp [PlaylistFinished, ShowMessage_ignore]

/-- C3: from a state with `ignore_next_stopped_` false, `PlaylistFinished`
followed by `Stopped` enters `ShowMessage` exactly once, with the message
"Playlist finished" (the `Stopped` handler dispatches nothing and leaves
`ignore_next_stopped_` false); one more `Stopped` enters `ShowMessage` once,
with the message "Stopped". -/
theorem PlaylistFinished_then_Stopped (env : Env) (s : OSD)
    (h : s.ignore_next_stopped_ = false) :
    dispatched (Stopped env (PlaylistFinished env s)).calls =
      dispatched s.calls ++ [(env.applicationName, "Playlist finished", "", .null)] ∧
    dispatched (Stopped env (PlaylistFinished env s)).calls =
      dispatched (PlaylistFinished env s).calls ∧
    (Stopped env (PlaylistFinished env s)).ignore_next_stopped_ = false ∧
    dispatched (Stopped env (Stopped env (PlaylistFinished env s))).calls =
      dispatched (Stopped env (PlaylistFinished env s)).calls ++
        [(env.applicationName, "Stopped", "", .null)] ∧
    dispatched (Stopped env s).calls =
      dispatched s.calls ++ [(env.applicationName, "Stopped", "", .null)] := by
  have hpf : dispatched (PlaylistFinished env s).calls =
      dispatched s.calls ++ [(env.applicationName, "Playlist finished", "", .null)] := by
    simp only [PlaylistFinished, tr]
    rw [ShowMessage_dispatched]
  have hst := Stopped_ignored env (PlaylistFinished env s) (PlaylistFinished_ignore env s)
  have hflag : (Stopped env (PlaylistFinished env s)).ignore_next_stopped_ = false := by
    rw [hst]
  have hcalls : dispatched (Stopped env (PlaylistFinished env s)).calls =
      dispatched (PlaylistFinished env s).calls := by
    rw [hst, dispatched_append]
    simp [dispatched]
  refine ⟨by rw [hcalls, hpf], hcalls, hflag, ?_, ?_⟩
  · rw [Stopped_dispatches env _ hflag, ShowMessage_dispatched]
    simp [OSD.call, dispatched_append, dispatched]
  · rw [Stopped_dispatches env _ h, ShowMessage_dispatched]
    simp [OSD.call, dispatched_append, dispatched]

theorem PlaylistFinished_then_Stopped_witness :
    dispatched (Stopped Env.sample (PlaylistFinished Env.sample OSD.init)).calls =
      dispatched OSD.init.calls ++ [("Clementine", "Playlist finished", "", .null)] :=
  (PlaylistFinished_then_Stopped Env.sample OSD.init rfl).1

/-! ## Song changed -/

theorem QString.isEmpty_eq (q : QString) : String.isEmpty q = decide (q = "") := by
  by_cases hq : q = ""
  · subst hq; rfl
  · cases hi : String.isEmpty q
    · simp [hq]
    · exact absurd ((String.isEmpty_iff _).1 hi) hq

/-- The record `SongChanged` builds is the one the spec describes. -/
theorem SongChanged_eq (env : Env) (s : OSD) (song : Song) (id : Nat) :
    SongChanged env s song id =
      if s.show_art_ then
        { s with
          calls := s.calls ++ [.SetNowPlaying song none, .LoadImageAsync song id]
          waiting_for_album_art_ :=
            QMap.insert id (specNotification song) s.waiting_for_album_art_ }
      else
        ShowMessage env (s.call (.SetNowPlaying song none)) (specSummary song)
          (specMessage song) "notification-audio-play" .null := by
  unfold SongChanged specNotification specMessage specSummary
  simp only [QString.isEmpty_eq, AlbumArtLoadedInfo, OSD.call, tr]
  by_cases ha : song.artist = "" <;> by_cases hb : song.album = "" <;>
    by_cases hd : 0 < song.disc <;> by_cases ht : 0 < song.track <;>
    cases hsa : s.show_art_ <;> simp [ha, hb, hd, ht]

theorem SongChanged_table (env : Env) (s : OSD) (song : Song) (id : Nat) :
    (SongChanged env s song id).waiting_for_album_art_ =
      if s.show_art_ then QMap.insert id (specNotification song) s.waiting_for_album_art_
      else s.waiting_for_album_art_ := by
  rw [SongChanged_eq]
  cases hsa : s.show_art_
  · simp [ShowMessage_table, OSD.call]
  · simp

theorem SongChanged_find_ne (env : Env) (s : OSD) (song : Song) (id k : Nat) (h : k ≠ id) :
    QMap.find k (SongChanged env s song id).waiting_for_album_art_ =
      QMap.find k s.waiting_for_album_art_ := by
  rw [SongChanged_table]
  cases hsa : s.show_art_
  · simp
  · simp [QMap.find_insert_ne id k _ _ h]

theorem AlbumArtLoaded_table (env : Env) (s : OSD) (id : Nat) (image : QImage) :
    (AlbumArtLoaded env s id image).waiting_for_album_art_ =
      QMap.remove id s.waiting_for_album_art_ := by
  simp [AlbumArtLoaded, AlbumArtLoadedInfo, ShowMessage_table, QMap.take]

theorem AlbumArtLoaded_dispatched (env : Env) (s : OSD) (id : Nat) (image : QImage)
    (info : WaitingForAlbumArt) (h : QMap.find id s.waiting_for_album_art_ = some info) :
    dispatched (AlbumArtLoaded env s id image).calls =
      dispatched s.calls ++ [(info.summary, info.message, info.icon, image)] := by
  simp [AlbumArtLoaded, AlbumArtLoadedInfo, ShowMessage_dispatched, QMap.take, h]

theorem AlbumArtLoaded_dispatched_none (env : Env) (s : OSD) (id : Nat) (image : QImage)
    (h : QMap.find id s.waiting_for_album_art_ = none) :
    dispatched (AlbumArtLoaded env s id image).calls =
      dispatched s.calls ++ [("", "", "", image)] := by
  simp only [AlbumArtLoaded, AlbumArtLoadedInfo, ShowMessage_dispatched, QMap.take, h]
  rfl

/-- The pending table after one event. -/
theorem step_table (env : Env) (s : OSD) (e : Event) :
    (step env s e).waiting_for_album_art_ =
      match e with
      | .SongChanged song id =>
          if s.show_art_ then QMap.insert id (specNotification song) s.waiting_for_album_art_
          else s.waiting_for_album_art_
      | .AlbumArtLoaded id _ => QMap.remove id s.waiting_for_album_art_
      | _ => s.waiting_for_album_art_ := by
  cases e with
  | SongChanged song id => exact SongChanged_table env s song id
  | AlbumArtLoaded id image => exact AlbumArtLoaded_table env s id image
  | CoverArtPathReady song image_path => rfl
  | CoverLoaderInitialised => rfl
  | Paused => simp [step, Paused, ShowMessage_table]
  | Stopped =>
    cases hi : s.ignore_next_stopped_ <;> simp [step, Stopped, OSD.call, hi, ShowMessage_table]
  | PlaylistFinished => simp [step, PlaylistFinished, ShowMessage_table]
  | VolumeChanged value =>
    cases hv : s.show_on_volume_change_ <;> simp [step, VolumeChanged, hv, ShowMessage_table]
  | MagnatuneDownloadFinished albums =>
    simp [step, MagnatuneDownloadFinished, ShowMessage_table]
  | ShuffleModeChanged mode =>
    cases hv : s.show_on_play_mode_change_ <;>
      simp [step, ShuffleModeChanged, hv, ShowMessage_table]
  | RepeatModeChanged mode =>
    cases hv : s.show_on_play_mode_change_ <;>
      simp [step, RepeatModeChanged, hv, ShowMessage_table]
  | ReloadSettings cfg =>
    simp only [step, ReloadSettings, OSD.call]
    split <;> split <;> rfl
  | ShowMessage summary message icon image => simp [step, ShowMessage_table]
  | WiiremoteActived id => simp [step, WiiremoteActived, ShowMessage_table]
  | WiiremoteDeactived id => simp [step, WiiremoteDeactived, ShowMessage_table]
  | WiiremoteConnected id => simp [step, WiiremoteConnected, ShowMessage_table]
  | WiiremoteDisconnected id => simp [step, WiiremoteDisconnected, ShowMessage_table]
  | WiiremoteLowBattery id live => simp [step, WiiremoteLowBattery, ShowMessage_table]
  | WiiremoteCriticalBattery id live =>
    simp [step, WiiremoteCriticalBattery, ShowMessage_table]

/-- Only `Stopped` clears `ignore_next_stopped_`. -/
theorem step_ignore (env : Env) (s : OSD) (e : Event) (he : e ≠ .Stopped)
    (h : s.ignore_next_stopped_ = true) :
    (step env s e).ignore_next_stopped_ = true := by
  cases e with
  | SongChanged song id =>
    simp only [step]
    rw [SongChanged_eq]
    cases hsa : s.show_art_ <;> simp [ShowMessage_ignore, OSD.call, h]
  | AlbumArtLoaded id image =>
    simp [step, AlbumArtLoaded, AlbumArtLoadedInfo, ShowMessage_ignore, h]
  | CoverArtPathReady song image_path => exact h
  | CoverLoaderInitialised => exact h
  | Paused => simp [step, Paused, ShowMessage_ignore, h]
  | Stopped => exact absurd rfl he
  | PlaylistFinished => simp [step, PlaylistFinished, ShowMessage_ignore]
  | VolumeChanged value =>
    cases hv : s.show_on_volume_change_ <;>
      simp [step, VolumeChanged, hv, ShowMessage_ignore, h]
  | MagnatuneDownloadFinished albums =>
    simp [step, MagnatuneDownloadFinished, ShowMessage_ignore, h]
  | ShuffleModeChanged mode =>
    cases hv : s.show_on_play_mode_change_ <;>
      simp [step, ShuffleModeChanged, hv, ShowMessage_ignore, h]
  | RepeatModeChanged mode =>
    cases hv : s.show_on_play_mode_change_ <;>
      simp [step, RepeatModeChanged, hv, ShowMessage_ignore, h]
  | ReloadSettings cfg =>
    simp only [step, ReloadSettings, OSD.call]
    split <;> split <;> exact h
  | ShowMessage summary message icon image => simp [step, ShowMessage_ignore, h]
  | WiiremoteActived id => simp [step, WiiremoteActived, ShowMessage_ignore, h]
  | WiiremoteDeactived id => simp [step, WiiremoteDeactived, ShowMessage_ignore, h]
  | WiiremoteConnected id => simp [step, WiiremoteConnected, ShowMessage_ignore, h]
  | WiiremoteDisconnected id => simp [step, WiiremoteDisconnected, ShowMessage_ignore, h]
  | WiiremoteLowBattery id live => simp [step, WiiremoteLowBattery, ShowMessage_ignore, h]
  | WiiremoteCriticalBattery id live =>
    simp [step, WiiremoteCriticalBattery, ShowMessage_ignore, h]

theorem run_ignore (env : Env) (events : List Event) :
    ∀ s : OSD, Event.Stopped ∉ events → s.ignore_next_stopped_ = true →
      (run env s events).ignore_next_stopped_ = true := by
  induction events with
  | nil => intro s _ h; exact h
  | cons e rest ih =>
    intro s hne h
    have he : e ≠ .Stopped := fun heq => hne (heq ▸ List.mem_cons_self e rest)
    have hrest : Event.Stopped ∉ rest := fun hm => hne (List.mem_cons_of_mem e hm)
    exact ih (step env s e) hrest (step_ignore env s e he h)

/-- C7: the notification `SongChanged` builds for a song (stored under the
token when art is wanted, dispatched at once otherwise) has the summary
"artist - title" when the artist is non-empty and the title alone otherwise,
the message made of the album when non-empty, "disc N" when the disc is
positive and "track N" when the track is positive, in that order and joined by
", ", and the icon "notification-audio-play"; for Muse, Starlight, Black Holes,
disc 0, track 3 that is "Muse - Starlight" and "Black Holes, track 3". -/
theorem SongChanged_format (env : Env) (s : OSD) (song : Song) (id : Nat) :
    (s.show_art_ = true →
      QMap.find id (SongChanged env s song id).waiting_for_album_art_ =
        some { icon := "notification-audio-play"
               summary := specSummary song
               message := specMessage song }) ∧
    (s.show_art_ = false →
      dispatched (SongChanged env s song id).calls =
        dispatched s.calls ++
          [(specSummary song, specMessage song, "notification-audio-play", .null)]) ∧
    (song.artist ≠ "" → specSummary song = song.artist ++ " - " ++ song.PrettyTitle) ∧
    (song.artist = "" → specSummary song = song.PrettyTitle) ∧
    (song.album = "" → song.disc ≤ 0 → song.track ≤ 0 → specMessage song = "") ∧
    QMap.find 4 (SongChanged Env.sample OSD.init Song.starlight 4).waiting_for_album_art_ =
      some { icon := "notification-audio-play"
             summary := "Muse - Starlight"
             message := "Black Holes, track 3" } ∧
    dispatched
        (SongChanged Env.sample { OSD.init with show_art_ := false } Song.starlight 4).calls =
      [("Muse - Starlight", "Black Holes, track 3", "notification-audio-play", .null)] := by
  refine ⟨?_, ?_, ?_, ?_, ?_, by decide, by decide⟩
  · intro h
    rw [SongChanged_table, h]
    simp [QMap.find_insert_self, specNotification]
  · intro h
    rw [SongChanged_eq, h]
    simp [ShowMessage_dispatched, OSD.call, dispatched_append, dispatched]
  · intro h; simp [specSummary, h]
  · intro h; simp [specSummary, h]
  · intro ha hd ht
    have hd2 : ¬ 0 < song.disc := not_lt.mpr hd
    have ht2 : ¬ 0 < song.track := not_lt.mpr ht
    simp [specMessage, ha, hd2, ht2]
    rfl

theorem SongChanged_format_witness :
    specSummary Song.starlight = Song.starlight.artist ++ " - " ++ Song.starlight.PrettyTitle :=
  (SongChanged_format Env.sample OSD.init Song.starlight 4).2.2.1 (by decide)

/-! ## The pending table and the other handlers -/

theorem QMap.find_insert (id k : Nat) (v : WaitingForAlbumArt) (m : QMap) :
    QMap.find k (QMap.insert id v m) = if k = id then some v else QMap.find k m := by
  by_cases hk : k = id
  · subst hk; simp [QMap.find_insert_self]
  · simp [hk, QMap.find_insert_ne id k v m hk]

theorem QMap.find_remove (id k : Nat) (m : QMap) :
    QMap.find k (QMap.remove id m) = if k = id then none else QMap.find k m := by
  by_cases hk : k = id
  · subst hk; simp [QMap.find_remove_self]
  · simp [hk, QMap.find_remove_ne id k m hk]

theorem QMap.find_none_of_not_key (id : Nat) (m : QMap) (h : id ∉ m.map Prod.fst) :
    QMap.find id m = none := by
  induction m with
  | nil => rfl
  | cons e rest ih =>
    obtain ⟨k, v⟩ := e
    simp only [List.map_cons, List.mem_cons, not_or] at h
    have hk : ¬ k = id := fun hk => h.1 hk.symm
    rw [QMap.find_cons, if_neg hk]
    exact ih h.2

theorem QMap.length_remove_le (id : Nat) (m : QMap) (old : WaitingForAlbumArt)
    (h : QMap.find id m = some old) :
    (QMap.remove id m).length + 1 ≤ m.length := by
  induction m with
  | nil => cases h
  | cons e rest ih =>
    obtain ⟨k, v⟩ := e
    rw [QMap.remove_cons]
    by_cases hk : k = id
    · rw [if_pos hk]
      have : (QMap.remove id rest).length ≤ rest.length := List.length_filter_le _ _
      simpa using this
    · rw [QMap.find_cons, if_neg hk] at h
      rw [if_neg hk]
      simpa using ih h

theorem QMap.length_remove_eq (id : Nat) (m : QMap) (old : WaitingForAlbumArt)
    (hd : QMap.distinctKeys m) (h : QMap.find id m = some old) :
    (QMap.remove id m).length + 1 = m.length := by
  induction m with
  | nil => cases h
  | cons e rest ih =>
    obtain ⟨k, v⟩ := e
    have hd2 : k ∉ rest.map Prod.fst ∧ QMap.distinctKeys rest := by
      simpa [QMap.distinctKeys] using hd
    rw [QMap.remove_cons]
    by_cases hk : k = id
    · subst hk
      rw [if_pos rfl, QMap.remove_of_find_none k rest (QMap.find_none_of_not_key k rest hd2.1)]
      rfl
    · rw [QMap.find_cons, if_neg hk] at h
      rw [if_neg hk]
      simpa using ih hd2.2 h

theorem ShowMessage_untabled (env : Env) (s : OSD) (summary message icon : QString)
    (image : QImage) :
    (ShowMessage env s summary message icon image).untabled =
      ShowMessage env s.untabled summary message icon image := by
  unfold ShowMessage
  cases hb : s.behaviour_ <;> simp [OSD.call, OSD.untabled, hb] <;> split <;> rfl

theorem OSD.untabled_idem (s : OSD) : s.untabled.untabled = s.untabled := rfl

/-- Apart from the pending table, what a handler other than art delivery does
is decided by the state apart from the pending table. -/
theorem step_untabled (env : Env) (s : OSD) (e : Event)
    (he : ∀ id image, e ≠ .AlbumArtLoaded id image) :
    (step env s e).untabled = (step env s.untabled e).untabled := by
  cases e with
  | AlbumArtLoaded id image => exact absurd rfl (he id image)
  | SongChanged song id =>
    simp only [step]
    rw [SongChanged_eq, SongChanged_eq]
    cases hsa : s.show_art_
    · have hsa2 : s.untabled.show_art_ = false := hsa
      simp only [hsa2, ShowMessage_untabled, Bool.false_eq_true, if_false]
      rfl
    · have hsa2 : s.untabled.show_art_ = true := hsa
      simp only [hsa2, if_true]
      rfl
  | CoverArtPathReady song image_path => rfl
  | CoverLoaderInitialised => rfl
  | Paused => simp only [step, Paused, ShowMessage_untabled]; rfl
  | Stopped =>
    simp only [step, Stopped]
    cases hi : s.ignore_next_stopped_
    · have hi2 : (s.untabled.call .ClearNowPlaying).ignore_next_stopped_ = false := hi
      have hi3 : (s.call .ClearNowPlaying).ignore_next_stopped_ = false := hi
      simp only [hi2, hi3, ShowMessage_untabled, Bool.false_eq_true, if_false]
      rfl
    · have hi2 : (s.untabled.call .ClearNowPlaying).ignore_next_stopped_ = true := hi
      have hi3 : (s.call .ClearNowPlaying).ignore_next_stopped_ = true := hi
      simp only [hi2, hi3, if_true]
      rfl
  | PlaylistFinished => simp only [step, PlaylistFinished, ShowMessage_untabled]; rfl
  | VolumeChanged value =>
    simp only [step, VolumeChanged]
    cases hv : s.show_on_volume_change_
    · have hv2 : s.untabled.show_on_volume_change_ = false := hv
      simp only [hv2, Bool.not_false, Bool.false_eq_true, if_true, if_false]
      rfl
    · have hv2 : s.untabled.show_on_volume_change_ = true := hv
      simp only [hv2, ShowMessage_untabled, Bool.not_true, Bool.false_eq_true, if_true, if_false]
      rfl
  | MagnatuneDownloadFinished albums =>
    simp only [step, MagnatuneDownloadFinished, ShowMessage_untabled]; rfl
  | ShuffleModeChanged mode =>
    simp only [step, ShuffleModeChanged]
    cases hv : s.show_on_play_mode_change_
    · have hv2 : s.untabled.show_on_play_mode_change_ = false := hv
      simp only [hv2, Bool.not_false, Bool.false_eq_true, if_true, if_false]
      rfl
    · have hv2 : s.untabled.show_on_play_mode_change_ = true := hv
      simp only [hv2, ShowMessage_untabled, Bool.not_true, Bool.false_eq_true, if_true, if_false]
      rfl
  | RepeatModeChanged mode =>
    simp only [step, RepeatModeChanged]
    cases hv : s.show_on_play_mode_change_
    · have hv2 : s.untabled.show_on_play_mode_change_ = false := hv
      simp only [hv2, Bool.not_false, Bool.false_eq_true, if_true, if_false]
      rfl
    · have hv2 : s.untabled.show_on_play_mode_change_ = true := hv
      simp only [hv2, ShowMessage_untabled, Bool.not_true, Bool.false_eq_true, if_true, if_false]
      rfl
  | ReloadSettings cfg =>
    simp only [step, ReloadSettings, OSD.call, OSD.untabled]
    split <;> split <;> rfl
  | ShowMessage summary message icon image => simp only [step, ShowMessage_untabled]; rfl
  | WiiremoteActived id => simp only [step, WiiremoteActived, ShowMessage_untabled]; rfl
  | WiiremoteDeactived id => simp only [step, WiiremoteDeactived, ShowMessage_untabled]; rfl
  | WiiremoteConnected id => simp only [step, WiiremoteConnected, ShowMessage_untabled]; rfl
  | WiiremoteDisconnected id =>
    simp only [step, WiiremoteDisconnected, ShowMessage_untabled]; rfl
  | WiiremoteLowBattery id live =>
    simp only [step, WiiremoteLowBattery, ShowMessage_untabled]; rfl
  | WiiremoteCriticalBattery id live =>
    simp only [step, WiiremoteCriticalBattery, ShowMessage_untabled]; rfl

/-- Art delivery reads the pending table only at the delivered token. -/
theorem AlbumArtLoaded_untabled (env : Env) (s : OSD) (id : Nat) (image : QImage) :
    (AlbumArtLoaded env s id image).untabled =
      ShowMessage env s.untabled
        ((QMap.find id s.waiting_for_album_art_).getD default).summary
        ((QMap.find id s.waiting_for_album_art_).getD default).message
        ((QMap.find id s.waiting_for_album_art_).getD default).icon image := by
  simp only [AlbumArtLoaded, AlbumArtLoadedInfo, QMap.take, ShowMessage_untabled]
  rfl

/-- Two states that differ at most in the entry under `id` still differ at most
there after any event other than art delivery for `id`. -/
theorem step_agree (env : Env) (id : Nat) (s s2 : OSD) (e : Event)
    (hu : s.untabled = s2.untabled)
    (hf : ∀ k : Nat, k ≠ id →
      QMap.find k s.waiting_for_album_art_ = QMap.find k s2.waiting_for_album_art_)
    (he : ∀ image, e ≠ .AlbumArtLoaded id image) :
    (step env s e).untabled = (step env s2 e).untabled ∧
    ∀ k : Nat, k ≠ id →
      QMap.find k (step env s e).waiting_for_album_art_ =
        QMap.find k (step env s2 e).waiting_for_album_art_ := by
  have hsa : s.untabled.show_art_ = s2.untabled.show_art_ := congrArg OSD.show_art_ hu
  change s.show_art_ = s2.show_art_ at hsa
  constructor
  · by_cases hart : ∃ id2 image, e = .AlbumArtLoaded id2 image
    · obtain ⟨id2, image, rfl⟩ := hart
      have hne : id2 ≠ id := fun heq => he image (heq ▸ rfl)
      simp only [step]
      rw [AlbumArtLoaded_untabled, AlbumArtLoaded_untabled, hf id2 hne, hu]
    · have hno : ∀ id2 image, e ≠ .AlbumArtLoaded id2 image :=
        fun id2 image heq => hart ⟨id2, image, heq⟩
      rw [step_untabled env s e hno, step_untabled env s2 e hno, hu]
  · intro k hk
    rw [step_table, step_table]
    cases e with
    | SongChanged song id2 =>
      simp only [hsa]
      cases s2.show_art_
      · simpa using hf k hk
      · simp [QMap.find_insert, hf k hk]
    | AlbumArtLoaded id2 image => simp [QMap.find_remove, hf k hk]
    | _ => simpa using hf k hk

theorem run_agree (env : Env) (id : Nat) (events : List Event) :
    ∀ s s2 : OSD, s.untabled = s2.untabled →
      (∀ k : Nat, k ≠ id →
        QMap.find k s.waiting_for_album_art_ = QMap.find k s2.waiting_for_album_art_) →
      (∀ e ∈ events, ∀ image, e ≠ .AlbumArtLoaded id image) →
      (run env s events).untabled = (run env s2 events).untabled := by
  induction events with
  | nil => intro s s2 hu _ _; exact hu
  | cons e rest ih =>
    intro s s2 hu hf he
    have h1 := step_agree env id s s2 e hu hf (he e (List.mem_cons_self e rest))
    exact ih (step env s e) (step env s2 e) h1.1 h1.2
      (fun e2 h2 => he e2 (List.mem_cons_of_mem e h2))

theorem run_find_kept (env : Env) (id : Nat) (events : List Event) :
    ∀ s : OSD,
      (∀ e ∈ events, (∀ image, e ≠ .AlbumArtLoaded id image) ∧
        (∀ song, e ≠ .SongChanged song id)) →
      QMap.find id (run env s events).waiting_for_album_art_ =
        QMap.find id s.waiting_for_album_art_ := by
  induction events with
  | nil => intro s _; rfl
  | cons e rest ih =>
    intro s he
    have h1 := he e (List.mem_cons_self e rest)
    have hstep : QMap.find id (step env s e).waiting_for_album_art_ =
        QMap.find id s.waiting_for_album_art_ := by
      rw [step_table]
      cases e with
      | SongChanged song2 id2 =>
        have hne : id ≠ id2 := fun heq => h1.2 song2 (heq ▸ rfl)
        cases s.show_art_
        · simp
        · simp [QMap.find_insert_ne id2 id _ _ hne]
      | AlbumArtLoaded id2 image =>
        have hne : id ≠ id2 := fun heq => h1.1 image (heq ▸ rfl)
        simp [QMap.find_remove_ne id2 id _ hne]
      | _ => simp
    have := ih (step env s e) (fun e2 h2 => he e2 (List.mem_cons_of_mem e h2))
    rw [hstep] at this
    exact this

/-! ## Song changed, art wanted -/

/-- C5: with `show_art_` clear, `SongChanged` tells the tray the song and then
is exactly one `ShowMessage` call, made before it returns, with the song's
summary, message and icon and a null image; it issues no art request and
leaves the pending table as it was. -/
theorem SongChanged_no_art (env : Env) (s : OSD) (song : Song) (id : Nat)
    (h : s.show_art_ = false) :
    SongChanged env s song id =
      ShowMessage env (s.call (.SetNowPlaying song none)) (specSummary song)
        (specMessage song) "notification-audio-play" .null ∧
    dispatched (SongChanged env s song id).calls =
      dispatched s.calls ++
        [(specSummary song, specMessage song, "notification-audio-play", .null)] ∧
    (∃ bs : List Call, (∀ c ∈ bs, c.isBackend = true) ∧
      (SongChanged env s song id).calls =
        s.calls ++ .SetNowPlaying song none ::
          .ShowMessage (specSummary song) (specMessage song) "notification-audio-play" .null ::
          bs) ∧
    (∀ (song2 : Song) (id2 : Nat),
      Call.LoadImageAsync song2 id2 ∈ (SongChanged env s song id).calls →
        Call.LoadImageAsync song2 id2 ∈ s.calls) ∧
    (SongChanged env s song id).waiting_for_album_art_ = s.waiting_for_album_art_ := by
  have heq : SongChanged env s song id =
      ShowMessage env (s.call (.SetNowPlaying song none)) (specSummary song)
        (specMessage song) "notification-audio-play" .null := by
    rw [SongChanged_eq, h]; rfl
  obtain ⟨bs, hbs, hcalls⟩ := ShowMessage_calls env (s.call (.SetNowPlaying song none))
    (specSummary song) (specMessage song) "notification-audio-play" .null
  have hcalls2 : (SongChanged env s song id).calls =
      s.calls ++ .SetNowPlaying song none ::
        .ShowMessage (specSummary song) (specMessage song) "notification-audio-play" .null ::
        bs := by
    rw [heq, hcalls]; simp [OSD.call]
  refine ⟨heq, ?_, ⟨bs, hbs, hcalls2⟩, ?_, ?_⟩
  · rw [heq, ShowMessage_dispatched]
    simp [OSD.call, dispatched_append, dispatched]
  · intro song2 id2 hmem
    rw [hcalls2] at hmem
    simp only [List.mem_append, List.mem_cons] at hmem
    rcases hmem with hm | hm | hm | hm
    · exact hm
    · cases hm
    · cases hm
    · have := hbs _ hm
      simp [Call.isBackend] at this
  · rw [heq, ShowMessage_table]; rfl

theorem SongChanged_no_art_witness :
    (SongChanged Env.sample { OSD.init with show_art_ := false } Song.starlight
      4).waiting_for_album_art_ =
      ({ OSD.init with show_art_ := false } : OSD).waiting_for_album_art_ :=
  (SongChanged_no_art Env.sample { OSD.init with show_art_ := false } Song.starlight 4
    rfl).2.2.2.2

/-! ## Round trip through the pending table -/

theorem songChanges_find (env : Env) (t : Nat) (later : List (Song × Nat)) :
    ∀ s : OSD, (∀ p ∈ later, p.2 ≠ t) →
      QMap.find t (songChanges env s later).waiting_for_album_art_ =
        QMap.find t s.waiting_for_album_art_ := by
  induction later with
  | nil => intro s _; rfl
  | cons p rest ih =>
    intro s hne
    have hp : t ≠ p.2 := fun heq => hne p (List.mem_cons_self p rest) heq.symm
    have hrest : ∀ q ∈ rest, q.2 ≠ t := fun q hq => hne q (List.mem_cons_of_mem p hq)
    have := ih (SongChanged env s p.1 p.2) hrest
    rw [SongChanged_find_ne env s p.1 p.2 t hp] at this
    exact this

/-- C9: with `show_art_` set, after `SongChanged` stored a song's notification
under the token `t` and any further `SongChanged` calls got other tokens,
`AlbumArtLoaded(t, image)` enters `ShowMessage` once with that song's summary,
message and icon and the delivered image, removes the entry of `t` and leaves
every other entry as it was; a second `AlbumArtLoaded(t, ...)` finds no entry
(it takes a default-constructed record). -/
theorem pending_round_trip (env : Env) (s : OSD) (song : Song) (t : Nat)
    (later : List (Song × Nat)) (image image2 : QImage)
    (h : s.show_art_ = true) (hne : ∀ p ∈ later, p.2 ≠ t) :
    dispatched
        (AlbumArtLoaded env (songChanges env (SongChanged env s song t) later) t image).calls =
      dispatched (songChanges env (SongChanged env s song t) later).calls ++
        [(specSummary song, specMessage song, "notification-audio-play", image)] ∧
    QMap.find t
        (AlbumArtLoaded env (songChanges env (SongChanged env s song t) later) t
          image).waiting_for_album_art_ = none ∧
    (∀ k : Nat, k ≠ t →
      QMap.find k
          (AlbumArtLoaded env (songChanges env (SongChanged env s song t) later) t
            image).waiting_for_album_art_ =
        QMap.find k (songChanges env (SongChanged env s song t) later).waiting_for_album_art_) ∧
    (QMap.take t
        (AlbumArtLoaded env (songChanges env (SongChanged env s song t) later) t
          image).waiting_for_album_art_).1 = default ∧
    dispatched
        (AlbumArtLoaded env
          (AlbumArtLoaded env (songChanges env (SongChanged env s song t) later) t image)
          t image2).calls =
      dispatched
          (AlbumArtLoaded env (songChanges env (SongChanged env s song t) later) t
            image).calls ++ [("", "", "", image2)] := by
  have hstored : QMap.find t (SongChanged env s song t).waiting_for_album_art_ =
      some (specNotification song) := by
    rw [SongChanged_table, h]
    simp [QMap.find_insert_self]
  have hkept : QMap.find t
      (songChanges env (SongChanged env s song t) later).waiting_for_album_art_ =
      some (specNotification song) := by
    rw [songChanges_find env t later _ hne, hstored]
  have hgone : QMap.find t
      (AlbumArtLoaded env (songChanges env (SongChanged env s song t) later) t
        image).waiting_for_album_art_ = none := by
    rw [AlbumArtLoaded_table]
    exact QMap.find_remove_self t _
  refine ⟨?_, hgone, ?_, ?_, ?_⟩
  · rw [AlbumArtLoaded_dispatched env _ t image (specNotification song) hkept]
    rfl
  · intro k hk
    rw [AlbumArtLoaded_table]
    exact QMap.find_remove_ne t k _ hk
  · simp [QMap.take, hgone]
  · exact AlbumArtLoaded_dispatched_none env _ t image2 hgone

theorem pending_round_trip_witness :
    dispatched
        (AlbumArtLoaded Env.sample
          (songChanges Env.sample (SongChanged Env.sample OSD.init Song.starlight 4)
            [({ Song.starlight with PrettyTitle := "Uprising" }, 5)]) 4 (.pixels 9)).calls =
      dispatched
          (songChanges Env.sample (SongChanged Env.sample OSD.init Song.starlight 4)
            [({ Song.starlight with PrettyTitle := "Uprising" }, 5)]).calls ++
        [(specSummary Song.starlight, specMessage Song.starlight, "notification-audio-play",
          .pixels 9)] :=
  (pending_round_trip Env.sample OSD.init Song.starlight 4
    [({ Song.starlight with PrettyTitle := "Uprising" }, 5)] (.pixels 9) .null rfl
    (by decide)).1

/-! ## The suppression outlives other events -/

/-- C10: after `PlaylistFinished`, `ignore_next_stopped_` stays set through any
events other than `Stopped`, since every handler but `Stopped` keeps a set
flag set; so the first `Stopped` after it only clears the tray's now-playing
indicator and the flag, and enters `ShowMessage` not at all. -/
theorem ignore_next_stopped_persists (env : Env) (s : OSD) (events : List Event)
    (h : Event.Stopped ∉ events) :
    (run env (PlaylistFinished env s) events).ignore_next_stopped_ = true ∧
    (∀ (s2 : OSD) (e : Event), e ≠ .Stopped → s2.ignore_next_stopped_ = true →
      (step env s2 e).ignore_next_stopped_ = true) ∧
    Stopped env (run env (PlaylistFinished env s) events) =
      { run env (PlaylistFinished env s) events with
        ignore_next_stopped_ := false
        calls := (run env (PlaylistFinished env s) events).calls ++ [.ClearNowPlaying] } ∧
    dispatched (Stopped env (run env (PlaylistFinished env s) events)).calls =
      dispatched (run env (PlaylistFinished env s) events).calls ∧
    backendCalls (Stopped env (run env (PlaylistFinished env s) events)).calls =
      backendCalls (run env (PlaylistFinished env s) events).calls := by
  have hflag := run_ignore env events (PlaylistFinished env s) h
    (PlaylistFinished_ignore env s)
  have hst := Stopped_ignored env _ hflag
  refine ⟨hflag, fun s2 e he h2 => step_ignore env s2 e he h2, hst, ?_, ?_⟩
  · rw [hst, dispatched_append]; simp [dispatched]
  · rw [hst]; simp [backendCalls, Call.isBackend, List.filter_append, List.filter_cons]

theorem ignore_next_stopped_persists_witness :
    (run Env.sample (PlaylistFinished Env.sample OSD.init)
      [.SongChanged Song.starlight 4, .Paused, .VolumeChanged 42,
        .AlbumArtLoaded 4 .null]).ignore_next_stopped_ = true :=
  (ignore_next_stopped_persists Env.sample OSD.init
    [.SongChanged Song.starlight 4, .Paused, .VolumeChanged 42, .AlbumArtLoaded 4 .null]
    (by decide)).1

end Clementine
